import Mathlib

/-!
Shallow embedding of the Azure Functions MCP gateway
(src/function_app.py and src/shared_code/db_manager.py).

JSON values are modelled after the result of json.loads; a tool's
`context` argument is modelled as `Option JsonValue`, where `none`
stands for a string json.loads rejects (json.JSONDecodeError).
JSON floats do not occur in any claim and are left out of the model.
Python exceptions are modelled with `Except PyExc`; an `.error` value
of a modelled function is an exception the corresponding Python code
raises to its caller.  String literals reproduce the source's messages.
-/

/-- JSON-compatible values as produced by json.loads (floats omitted).
Objects are association lists in insertion order with distinct keys. -/
inductive JsonValue where
  | jnull
  | jbool (b : Bool)
  | jint (n : Int)
  | jstr (s : String)
  | jarr (xs : List JsonValue)
  | jobj (kvs : List (String × JsonValue))

/-- The Python exceptions the embedded code can raise. -/
inductive PyExc where
  | connectionError (msg : String)
  | valueError (msg : String)
  | typeError (msg : String)
  | attributeError (msg : String)
  | keyError (msg : String)
  | unboundLocalError (name : String)
  | dbError (msg : String)
deriving DecidableEq

/-- A Python dict with string keys, as an association list in insertion
order (keys distinct). -/
abbrev PyDict := List (String × JsonValue)

/-- First-match lookup in a dict. -/
def pyLookup (d : PyDict) (k : String) : Option JsonValue :=
  match d with
  | [] => none
  | (k2, v) :: rest => if k2 == k then some v else pyLookup rest k

/-- Python `k in d` for a dict. -/
def pyHasKey (d : PyDict) (k : String) : Bool :=
  d.any (fun kv => kv.1 == k)

/-- str(e) for the modelled exceptions (the message the source interpolates). -/
def pyExcStr : PyExc → String
  | .connectionError m => m
  | .valueError m => m
  | .typeError m => m
  | .attributeError m => m
  | .keyError m => m
  | .unboundLocalError n => "cannot access local variable " ++ n ++ " where it is not associated with a value"
  | .dbError m => m

/-- Python `key in v` for a string key: key test on dicts, membership on
lists, substring test on strings, TypeError on non-containers. -/
def pyContains (key : String) : JsonValue → Except PyExc Bool
  | .jobj kvs => .ok (pyHasKey kvs key)
  | .jarr xs => .ok (xs.any (fun x => match x with | .jstr t => t == key | _ => false))
  | .jstr s => .ok ((s.splitOn key).length > 1)
  | .jint _ => .error (.typeError "argument of type int is not iterable")
  | .jbool _ => .error (.typeError "argument of type bool is not iterable")
  | .jnull => .error (.typeError "argument of type NoneType is not iterable")

/-- Python `v[key]` for a string key. -/
def pySubscript (v : JsonValue) (key : String) : Except PyExc JsonValue :=
  match v with
  | .jobj kvs =>
    match pyLookup kvs key with
    | some x => .ok x
    | none => .error (.keyError key)
  | .jstr _ => .error (.typeError "string indices must be integers")
  | .jarr _ => .error (.typeError "list indices must be integers or slices, not str")
  | .jint _ => .error (.typeError "int object is not subscriptable")
  | .jbool _ => .error (.typeError "bool object is not subscriptable")
  | .jnull => .error (.typeError "NoneType object is not subscriptable")

/-- The whitespace characters str.strip() removes (ASCII range). -/
def pyIsSpace (c : Char) : Bool :=
  c == ' ' || c == '\t' || c == '\n' || c == '\r' || c == '\x0b' || c == '\x0c'

def pyStripList (cs : List Char) : List Char :=
  ((cs.dropWhile pyIsSpace).reverse.dropWhile pyIsSpace).reverse

/-- Python str.upper() character by character; Char.toUpper models it
on the ASCII range. -/
def pyUpperList (cs : List Char) : List Char :=
  cs.map Char.toUpper

def isPrefixList : List Char → List Char → Bool
  | [], _ => true
  | _ :: _, [] => false
  | p :: ps, c :: cs => p == c && isPrefixList ps cs

/-- sql_query.strip().upper().startswith("SELECT") from query_data_tool,
on the string's characters. -/
def startsWithSelect (sql : String) : Bool :=
  isPrefixList "SELECT".toList (pyUpperList (pyStripList sql.toList))

/-- Digits of a Python int literal after its first digit: digits with
single underscores allowed between digits. -/
def pyIntRest (acc : Nat) : List Char → Option Nat
  | [] => some acc
  | c :: rest =>
    if c.isDigit then pyIntRest (10 * acc + (c.toNat - 48)) rest
    else if c == '_' then
      match rest with
      | [] => none
      | d :: rest2 =>
        if d.isDigit then pyIntRest (10 * acc + (d.toNat - 48)) rest2 else none
    else none

def pyIntDigits : List Char → Option Nat
  | [] => none
  | c :: rest => if c.isDigit then pyIntRest (c.toNat - 48) rest else none

/-- Python int(s) for a str s: optional surrounding whitespace, optional
sign, base-10 digits with underscores between digits. -/
def pyIntOfString (s : String) : Except PyExc Int :=
  match pyStripList s.toList with
  | '+' :: rest =>
    match pyIntDigits rest with
    | some n => .ok (n : Int)
    | none => .error (.valueError ("invalid literal for int() with base 10: " ++ s))
  | '-' :: rest =>
    match pyIntDigits rest with
    | some n => .ok (-(n : Int))
    | none => .error (.valueError ("invalid literal for int() with base 10: " ++ s))
  | rest =>
    match pyIntDigits rest with
    | some n => .ok (n : Int)
    | none => .error (.valueError ("invalid literal for int() with base 10: " ++ s))

/-- Python int(v) on a JSON value: ints pass through, bools coerce to
0/1, strings parse (ValueError on failure), everything else raises
TypeError. -/
def pyInt : JsonValue → Except PyExc Int
  | .jint n => .ok n
  | .jbool b => .ok (if b then 1 else 0)
  | .jstr s => pyIntOfString s
  | .jnull => .error (.typeError "int() argument must be a string, a bytes-like object or a real number, not NoneType")
  | .jarr _ => .error (.typeError "int() argument must be a string, a bytes-like object or a real number, not list")
  | .jobj _ => .error (.typeError "int() argument must be a string, a bytes-like object or a real number, not dict")

/-- dict assignment d[k] = v: updates the value in place if k is
present, else appends (insertion order preserved). -/
def dictInsert (d : PyDict) (k : String) (v : JsonValue) : PyDict :=
  if pyHasKey d k then d.map (fun kv => if kv.1 == k then (kv.1, v) else kv)
  else d ++ [(k, v)]

/-- dict(zip(colnames, row)) from _execute_query: pairs are inserted
left to right, so a repeated column name keeps its first position but
its value is overwritten by the later one. -/
def dictZip (ks : List String) (vs : List JsonValue) : PyDict :=
  (List.zip ks vs).foldl (fun d kv => dictInsert d kv.1 kv.2) []

/-- The keys of a dict, in insertion order. -/
def dictKeys (d : PyDict) : List String :=
  d.map Prod.fst

/-!
Embedding of src/shared_code/db_manager.py.

The psycopg2 pool and its connections are opaque handles, modelled as
naturals.  The module-global `db_pool` is the `DbState` threaded
explicitly.  The environment (`DbConfig`, `GetEnv`) supplies the
outcomes of the external calls: reading POSTGRES_CONNECTION_STRING,
constructing SimpleConnectionPool, and pool.getconn().
-/

abbrev Pool := Nat

abbrev Conn := Nat

/-- The module-global `db_pool` of db_manager.py. -/
structure DbState where
  dbPool : Option Pool
deriving DecidableEq

/-- Environment of init_db_pool: the connection-string variable and the
outcome SimpleConnectionPool(1, 20, conn_str) would have. -/
structure DbConfig where
  connStr : Option String
  poolCtor : Except String Pool

/-- What one call to init_db_pool did: the new global state, the value
returned, how many pool constructions were attempted and how many
succeeded. -/
structure InitResult where
  state : DbState
  ret : Option Pool
  ctorCalls : Nat
  ctorSuccess : Nat
deriving DecidableEq

/-- init_db_pool: constructs the pool only when `db_pool is None`; a
missing or empty connection string raises ValueError, which the
surrounding except clause turns into `db_pool = None`; a failed
construction likewise leaves `db_pool = None` so a later call retries. -/
def init_db_pool (cfg : DbConfig) (s : DbState) : InitResult :=
  match s.dbPool with
  | some p => ⟨s, some p, 0, 0⟩
  | none =>
    match cfg.connStr with
    | none => ⟨⟨none⟩, none, 0, 0⟩
    | some cs =>
      if cs == "" then ⟨⟨none⟩, none, 0, 0⟩
      else
        match cfg.poolCtor with
        | .ok p => ⟨⟨some p⟩, some p, 1, 1⟩
        | .error _ => ⟨⟨none⟩, none, 1, 0⟩

/-- Environment of get_db_connection: the init environment plus the
outcome of db_pool.getconn() — a connection, a falsy result (`.ok
none`), or a raised exception. -/
structure GetEnv where
  cfg : DbConfig
  getconn : Pool → Except PyExc (Option Conn)

/-- What one call to get_db_connection did. `.ok c` is a returned
connection; `.error e` a raised exception. -/
structure GetResult where
  state : DbState
  ret : Except PyExc (Option Conn)

/-- The body of get_db_connection after the pool is known present:
`conn = db_pool.getconn()`; a truthy conn is returned, a falsy one
raises ConnectionError, and an exception from getconn is re-raised by
the `except ... raise` clause. -/
def getConnFromPool (env : GetEnv) (s : DbState) (p : Pool) : GetResult :=
  match env.getconn p with
  | .ok (some c) => ⟨s, .ok (some c)⟩
  | .ok none => ⟨s, .error (.connectionError "Failed to get connection from pool.")⟩
  | .error e => ⟨s, .error e⟩

/-- get_db_connection: retries init_db_pool when the pool is absent and
raises ConnectionError if it is still absent afterwards; otherwise
draws a connection from the pool.  Note it never returns None: every
failure path raises. -/
def get_db_connection (env : GetEnv) (s : DbState) : GetResult :=
  match s.dbPool with
  | some p => getConnFromPool env s p
  | none =>
    match (init_db_pool env.cfg s).state.dbPool with
    | some p => getConnFromPool env (init_db_pool env.cfg s).state p
    | none => ⟨(init_db_pool env.cfg s).state, .error (.connectionError "Database pool is not initialized. Check logs for errors.")⟩

/-- release_db_connection: calls db_pool.putconn(conn) when the pool
exists (`if db_pool and conn`), swallowing any putconn error; returns
whether the connection actually went back to the pool.  It never
raises. -/
def release_db_connection (putconnOk : Bool) (s : DbState) (_conn : Conn) : Bool :=
  match s.dbPool with
  | some _ => putconnOk
  | none => false

/-!
Embedding of _execute_query and the tools (src/function_app.py).
-/

/-- Environment of _execute_query: the pool environment, whether
putconn succeeds, and the outcome of cursor.execute + fetchall +
description for a given SQL string — column names and rows on success,
or the exception the driver raises. -/
structure ExecEnv where
  genv : GetEnv
  putconnOk : Bool
  runQuery : String → Except PyExc (List String × List (List JsonValue))

/-- The trace of one _execute_query call: the returned JSON envelope or
the exception that escaped, the final pool state, the connection
acquired (if any), the arguments of the release_db_connection calls
made, and the connections putconn actually took back. -/
structure ExecResult where
  state : DbState
  result : Except PyExc JsonValue
  acquired : Option Conn
  releaseCalls : List Conn
  returnedToPool : List Conn

def notInitializedMsg : String :=
  "AzurePostgreSQLManager not initialized. Check environment variables and logs."

/-- The `if conn is None` branch of _execute_query (its envelope is
unreachable: get_db_connection raises instead of returning None). -/
def notInitializedEnvelope : JsonValue :=
  .jobj [("error", .jstr notInitializedMsg)]

/-- The success envelope json.dumps({"columns": colnames, "rows": result_rows}). -/
def queryResultEnvelope (colnames : List String) (rows : List (List JsonValue)) : JsonValue :=
  .jobj [("columns", .jarr (colnames.map .jstr)),
         ("rows", .jarr (rows.map (fun row => .jobj (dictZip colnames row))))]

/-- _execute_query.

try: conn = db_manager.get_db_connection(); ... except ConnectionError:
return error envelope; finally: `if conn: release(conn)`.

When get_db_connection raises, the local `conn` was never assigned, so
the `finally` block's `if conn:` raises UnboundLocalError; that
exception replaces both the except-clause's pending return (for a
ConnectionError) and any other propagating exception.  When a
connection was acquired, the finally block releases it on every exit
path: normal return, the caught ConnectionError, and any uncaught
execution failure. -/
def execute_query (env : ExecEnv) (s : DbState) (query : String) : ExecResult :=
  match get_db_connection env.genv s with
  | ⟨s2, .error _⟩ =>
    { state := s2, result := .error (.unboundLocalError "conn"),
      acquired := none, releaseCalls := [], returnedToPool := [] }
  | ⟨s2, .ok none⟩ =>
    -- `if conn is None: return notInitializedEnvelope`; finally sees a
    -- falsy conn and does not release.  Dead code in the source.
    { state := s2, result := .ok notInitializedEnvelope,
      acquired := none, releaseCalls := [], returnedToPool := [] }
  | ⟨s2, .ok (some conn)⟩ =>
    match env.runQuery query with
    | .ok (colnames, rows) =>
      { state := s2, result := .ok (queryResultEnvelope colnames rows),
        acquired := some conn, releaseCalls := [conn],
        returnedToPool := if release_db_connection env.putconnOk s2 conn then [conn] else [] }
    | .error (.connectionError ce) =>
      { state := s2,
        result := .ok (.jobj [("error", .jstr ("Database connection error: " ++ ce))]),
        acquired := some conn, releaseCalls := [conn],
        returnedToPool := if release_db_connection env.putconnOk s2 conn then [conn] else [] }
    | .error e =>
      { state := s2, result := .error e,
        acquired := some conn, releaseCalls := [conn],
        returnedToPool := if release_db_connection env.putconnOk s2 conn then [conn] else [] }

/-- _parse_context_args, inner loop over expected_arg_names:
`if arg_name not in args: return error dict; extracted_args[arg_name] = args[arg_name]`. -/
def extractLoop (args : JsonValue) : List String → PyDict → Except PyExc PyDict
  | [], acc => .ok acc
  | name :: rest, acc =>
    match pyContains name args with
    | .error e => .error e
    | .ok false => .ok [("error", .jstr ("Missing required argument: '" ++ name ++ "'."))]
    | .ok true =>
      match pySubscript args name with
      | .error e => .error e
      | .ok v => extractLoop args rest (dictInsert acc name v)

def invalidJsonDict : PyDict :=
  [("error", .jstr "Invalid JSON format in input context.")]

def missingArgumentsKeyDict : PyDict :=
  [("error", .jstr "Invalid input format: 'arguments' key missing.")]

/-- _parse_context_args: json.loads (a `none` context is a decode
error, answered with the invalid-JSON dict), then the `arguments` key
check, then the extraction loop.  Returns the dict the function
returns, or the exception it raises. -/
def parse_context_args (ctx : Option JsonValue) (expected_arg_names : List String) :
    Except PyExc PyDict :=
  match ctx with
  | none => .ok invalidJsonDict
  | some payload =>
    match pyContains "arguments" payload with
    | .error e => .error e
    | .ok false => .ok missingArgumentsKeyDict
    | .ok true =>
      match pySubscript payload "arguments" with
      | .error e => .error e
      | .ok args => extractLoop args expected_arg_names []

/-- The Python type name of a JSON value (for error messages). -/
def pyTypeName : JsonValue → String
  | .jnull => "NoneType"
  | .jbool _ => "bool"
  | .jint _ => "int"
  | .jstr _ => "str"
  | .jarr _ => "list"
  | .jobj _ => "dict"

/-- What a tool invocation did: the final pool state and the returned
JSON envelope (`.ok`) or the exception that escaped (`.error`). -/
structure ToolOutcome where
  state : DbState
  result : Except PyExc JsonValue

def selectOnlyMsg : String :=
  "This tool is for SELECT queries only. Use appropriate tools for modifications."

/-- query_data_tool: extracts sql_query via _parse_context_args, echoes
an error dict back as the response, gates on the SELECT prefix
(`sql_query.strip().upper().startswith("SELECT")` — an AttributeError
if the value is not a str), and otherwise forwards the SQL string
unchanged to _execute_query. -/
def query_data_tool (env : ExecEnv) (s : DbState) (ctx : Option JsonValue) : ToolOutcome :=
  match parse_context_args ctx ["sql_query"] with
  | .error e => ⟨s, .error e⟩
  | .ok args =>
    if pyHasKey args "error" then ⟨s, .ok (.jobj args)⟩
    else
      match pyLookup args "sql_query" with
      | none => ⟨s, .error (.keyError "sql_query")⟩
      | some (.jstr sql) =>
        if startsWithSelect sql then
          ⟨(execute_query env s sql).state, (execute_query env s sql).result⟩
        else ⟨s, .ok (.jobj [("error", .jstr selectOnlyMsg)])⟩
      | some v => ⟨s, .error (.attributeError (pyTypeName v ++ " object has no attribute strip"))⟩

/-- The fixed SQL of get_databases_tool. -/
def databasesQuery : String :=
  "SELECT datname FROM pg_database WHERE datistemplate = false;"

/-- get_databases_tool: runs its fixed SQL through _execute_query. -/
def get_databases_tool (env : ExecEnv) (s : DbState) (_ctx : Option JsonValue) : ToolOutcome :=
  ⟨(execute_query env s databasesQuery).state, (execute_query env s databasesQuery).result⟩

def missingAbMsg : String :=
  "Missing required arguments: 'num_a' and 'num_b'."

def invalidTypesMsg : String :=
  "Invalid argument types. 'num_a' and 'num_b' must be integers."

def errorEnvelope (msg : String) : JsonValue :=
  .jobj [("error", .jstr msg)]

/-- The body of add_integers_tool inside its outer try: everything up
to the final json.dumps, with `.error` the exceptions that reach the
outer `except Exception` handler.  The inner `except ValueError` only
catches the int() conversion's ValueError; a TypeError from int() (for
None, lists, dicts) falls through to the outer handler. -/
def add_integers_body (ctx : Option JsonValue) : Except PyExc JsonValue :=
  match ctx with
  | none => .ok (errorEnvelope "Invalid JSON format in input context.")
  | some payload =>
    match pyContains "arguments" payload with
    | .error e => .error e
    | .ok false => .ok (errorEnvelope "Invalid input format: 'arguments' key missing.")
    | .ok true =>
      match pySubscript payload "arguments" with
      | .error e => .error e
      | .ok args =>
        match pyContains "num_a" args with
        | .error e => .error e
        | .ok false => .ok (errorEnvelope missingAbMsg)
        | .ok true =>
          match pyContains "num_b" args with
          | .error e => .error e
          | .ok false => .ok (errorEnvelope missingAbMsg)
          | .ok true =>
            match pySubscript args "num_a", pySubscript args "num_b" with
            | .error e, _ => .error e
            | .ok _, .error e => .error e
            | .ok va, .ok vb =>
              match pyInt va with
              | .error (.valueError _) => .ok (errorEnvelope invalidTypesMsg)
              | .error e => .error e
              | .ok na =>
                match pyInt vb with
                | .error (.valueError _) => .ok (errorEnvelope invalidTypesMsg)
                | .error e => .error e
                | .ok nb => .ok (.jobj [("sum", .jint (na + nb))])

/-- add_integers_tool: the body wrapped in the outer `except Exception`
handler, so the tool always returns a JSON envelope and never raises. -/
def add_integers_tool (ctx : Option JsonValue) : JsonValue :=
  match add_integers_body ctx with
  | .ok v => v
  | .error e => errorEnvelope ("An unexpected error occurred: " ++ pyExcStr e)

/-!
Helper lemmas about the pool layer.
-/

lemma getConnFromPool_state (env : GetEnv) (s : DbState) (p : Pool) :
    (getConnFromPool env s p).state = s := by
  unfold getConnFromPool
  cases h : env.getconn p with
  | ok o => cases o <;> simp
  | error e => simp

lemma get_db_connection_ok_pool (env : GetEnv) (s : DbState) (c : Conn)
    (h : (get_db_connection env s).ret = .ok (some c)) :
    ∃ p, (get_db_connection env s).state.dbPool = some p := by
  unfold get_db_connection at *
  cases hd : s.dbPool with
  | some p =>
    exact ⟨p, by simp [hd, getConnFromPool_state]⟩
  | none =>
    cases hi : (init_db_pool env.cfg s).state.dbPool with
    | some p =>
      exact ⟨p, by simp [hd, hi, getConnFromPool_state]⟩
    | none =>
      simp [hd, hi] at h

lemma release_of_pool_some (putconnOk : Bool) (s : DbState) (c : Conn) (p : Pool)
    (h : s.dbPool = some p) : release_db_connection putconnOk s c = putconnOk := by
  unfold release_db_connection
  rw [h]

/-- C1: on every exit path of _execute_query, the connection acquired at
the start of the call (when one was acquired) is handed to
release_db_connection exactly once, and — when putconn succeeds — goes
back to the pool exactly once; on the paths where no connection was
acquired, nothing is released.  `Option.toList` makes "exactly once per
acquired connection" literal: the list of release calls equals the list
of acquired connections. -/
theorem execute_query_releases_exactly_once
    (env : ExecEnv) (s : DbState) (q : String) :
    (execute_query env s q).releaseCalls = (execute_query env s q).acquired.toList ∧
    (env.putconnOk = true →
      (execute_query env s q).returnedToPool = (execute_query env s q).acquired.toList) := by
  rcases hg : get_db_connection env.genv s with ⟨s2, ret⟩
  cases ret with
  | error e => simp [execute_query, hg]
  | ok o =>
    cases o with
    | none => simp [execute_query, hg]
    | some c =>
      have hpool : ∃ p, s2.dbPool = some p := by
        have h2 := get_db_connection_ok_pool env.genv s c (by rw [hg])
        rw [hg] at h2
        exact h2
      obtain ⟨p, hp⟩ := hpool
      constructor
      · cases hr : env.runQuery q with
        | ok pr =>
          rcases pr with ⟨cols, rows⟩
          simp [execute_query, hg, hr]
        | error e => cases e <;> simp [execute_query, hg, hr]
      · intro hput
        have hrel : release_db_connection env.putconnOk s2 c = true := by
          rw [release_of_pool_some env.putconnOk s2 c p hp, hput]
        cases hr : env.runQuery q with
        | ok pr =>
          rcases pr with ⟨cols, rows⟩
          simp [execute_query, hg, hr, hrel]
        | error e => cases e <;> simp [execute_query, hg, hr, hrel]

/-- Concrete environments for witnesses and counterexamples: a working
configuration, pool 1, getconn handing out connection 7. -/
def okCfg : DbConfig := ⟨some "host=db.example dbname=postgres", .ok 1⟩

def okGetEnv : GetEnv := ⟨okCfg, fun _ => .ok (some 7)⟩

def okExecEnv : ExecEnv := ⟨okGetEnv, true, fun _ => .ok (["datname"], [[.jstr "db1"]])⟩

def poolSt : DbState := ⟨some 1⟩

def emptySt : DbState := ⟨none⟩

/-- An environment where POSTGRES_CONNECTION_STRING is unset, so the
pool is and stays uninitialized. -/
def noCfg : DbConfig := ⟨none, .error "never invoked"⟩

def noPoolEnv : ExecEnv := ⟨⟨noCfg, fun _ => .ok (some 7)⟩, true, fun _ => .ok ([], [])⟩

/-- Witness for C1 at a concrete input: with a working pool, connection
7 is acquired, released exactly once and returned to the pool. -/
theorem execute_query_releases_exactly_once_witness :
    (execute_query okExecEnv poolSt "SELECT 1").releaseCalls = [7] ∧
    (execute_query okExecEnv poolSt "SELECT 1").returnedToPool = [7] := by
  have h := execute_query_releases_exactly_once okExecEnv poolSt "SELECT 1"
  exact ⟨h.1.trans rfl, (h.2 rfl).trans rfl⟩

/-- An environment whose pool works but whose query execution raises a
driver error that is not a ConnectionError (e.g. a SQL syntax error). -/
def sqlErrEnv : ExecEnv :=
  ⟨okGetEnv, true, fun _ => .error (.dbError "syntax error at or near SELEC")⟩

/-- C2 (code bug): _execute_query does raise.  With the pool
unavailable, get_db_connection raises ConnectionError; the except
clause prepares the error envelope, but the finally block evaluates
`if conn:` with `conn` never assigned, so UnboundLocalError escapes
instead of the envelope.  And a non-ConnectionError execution failure
(a driver syntax error) is not caught at all and propagates. -/
theorem execute_query_raises_instead_of_returning :
    (execute_query noPoolEnv emptySt "SELECT 1").result
        = .error (.unboundLocalError "conn") ∧
    (execute_query sqlErrEnv poolSt "SELEC").result
        = .error (.dbError "syntax error at or near SELEC") :=
  ⟨rfl, rfl⟩

/-- C3 (code bug): with the connection string unset, a query tool does
not return the "AzurePostgreSQLManager not initialized" envelope: it
raises UnboundLocalError.  The envelope is dead code, because
get_db_connection raises instead of returning None. -/
theorem get_databases_raises_when_unconfigured :
    (get_databases_tool noPoolEnv emptySt none).result
        = .error (.unboundLocalError "conn") ∧
    ((get_databases_tool noPoolEnv emptySt none).result = .ok notInitializedEnvelope
        → False) := by
  refine ⟨rfl, fun h => ?_⟩
  have h2 : (Except.error (PyExc.unboundLocalError "conn") : Except PyExc JsonValue)
      = .ok notInitializedEnvelope := h
  exact Except.noConfusion h2

/-- The embedded get_db_connection never returns None: every failure
path raises, which is what makes the `if conn is None` branch of
_execute_query (the source of the claimed envelope) unreachable. -/
lemma get_db_connection_never_none (env : GetEnv) (s : DbState) :
    (get_db_connection env s).ret ≠ .ok none := by
  unfold get_db_connection
  cases hd : s.dbPool with
  | some p =>
    unfold getConnFromPool
    cases h : env.getconn p with
    | ok o => cases o <;> simp [h]
    | error e => simp [h]
  | none =>
    cases hi : (init_db_pool env.cfg s).state.dbPool with
    | some p =>
      simp only [hi]
      unfold getConnFromPool
      cases h : env.getconn p with
      | ok o => cases o <;> simp [h]
      | error e => simp [h]
    | none => simp [hi]

/-- A call to init_db_pool finding the pool already present is a no-op:
no construction, the existing pool returned, the state unchanged. -/
lemma init_db_pool_noop (cfg : DbConfig) (t : DbState) (p : Pool)
    (h : t.dbPool = some p) : init_db_pool cfg t = ⟨t, some p, 0, 0⟩ := by
  unfold init_db_pool
  rw [h]

/-- One call to init_db_pool constructs at most one pool. -/
lemma init_ctorSuccess_le_one (cfg : DbConfig) (s : DbState) :
    (init_db_pool cfg s).ctorSuccess ≤ 1 := by
  obtain ⟨sp⟩ := s
  obtain ⟨cstr, ctor⟩ := cfg
  cases sp with
  | some p0 => simp [init_db_pool]
  | none =>
    cases cstr with
    | none => simp [init_db_pool]
    | some cs =>
      by_cases hcs : (cs == "") = true
      · simp [init_db_pool, hcs]
      · cases ctor <;> simp [init_db_pool, hcs]

/-- When a call to init_db_pool constructed a pool, the state afterwards
holds one. -/
lemma init_success_pool (cfg : DbConfig) (s : DbState)
    (h : (init_db_pool cfg s).ctorSuccess = 1) :
    ∃ p, (init_db_pool cfg s).state.dbPool = some p := by
  obtain ⟨sp⟩ := s
  obtain ⟨cstr, ctor⟩ := cfg
  cases sp with
  | some p0 => simp [init_db_pool] at h
  | none =>
    cases cstr with
    | none => simp [init_db_pool] at h
    | some cs =>
      by_cases hcs : (cs == "") = true
      · simp [init_db_pool, hcs] at h
      · cases ctor with
        | ok p => exact ⟨p, by simp [init_db_pool, hcs]⟩
        | error e => simp [init_db_pool, hcs] at h

/-- C8: pool initialization is idempotent.  A second call made while
the pool is initialized is a no-op: it performs no construction and
returns the existing pool with the state unchanged.  Across any two
successive calls at most one construction succeeds, and exactly one
pool instance is produced when the first call starts from an
uninitialized state with a usable connection string. -/
theorem init_db_pool_idempotent
    (cfg cfg2 : DbConfig) (s : DbState) (p : Pool) (cs : String) :
    ((init_db_pool cfg s).state.dbPool = some p →
      init_db_pool cfg2 (init_db_pool cfg s).state =
        ⟨(init_db_pool cfg s).state, some p, 0, 0⟩) ∧
    ((init_db_pool cfg s).ctorSuccess +
      (init_db_pool cfg2 (init_db_pool cfg s).state).ctorSuccess ≤ 1) ∧
    (s.dbPool = none → cfg.connStr = some cs → (cs == "") = false →
      cfg.poolCtor = .ok p →
      (init_db_pool cfg s).ctorSuccess +
        (init_db_pool cfg2 (init_db_pool cfg s).state).ctorSuccess = 1) := by
  refine ⟨fun h => init_db_pool_noop cfg2 _ p h, ?_, ?_⟩
  · by_cases h1 : (init_db_pool cfg s).ctorSuccess = 1
    · obtain ⟨p1, hp1⟩ := init_success_pool cfg s h1
      rw [init_db_pool_noop cfg2 _ p1 hp1, h1]
      simp
    · have hle := init_ctorSuccess_le_one cfg s
      have h0 : (init_db_pool cfg s).ctorSuccess = 0 := by omega
      rw [h0]
      simpa using init_ctorSuccess_le_one cfg2 (init_db_pool cfg s).state
  · intro hs hc hcs hk
    have h1 : init_db_pool cfg s = ⟨⟨some p⟩, some p, 1, 1⟩ := by
      simp [init_db_pool, hs, hc, hcs, hk]
    rw [h1, init_db_pool_noop cfg2 ⟨some p⟩ p rfl]
    rfl

/-- Witness for C8 at a concrete input: from an uninitialized state
with a usable connection string, the first call builds pool 1, the
second call is a no-op returning it, and exactly one construction
succeeded across the two calls. -/
theorem init_db_pool_idempotent_witness :
    init_db_pool okCfg (init_db_pool okCfg emptySt).state =
      ⟨(init_db_pool okCfg emptySt).state, some 1, 0, 0⟩ ∧
    (init_db_pool okCfg emptySt).ctorSuccess +
      (init_db_pool okCfg (init_db_pool okCfg emptySt).state).ctorSuccess = 1 := by
  have h := init_db_pool_idempotent okCfg okCfg emptySt 1
      "host=db.example dbname=postgres"
  exact ⟨h.1 rfl, h.2.2 rfl rfl rfl rfl⟩

/-!
Helper lemmas about dicts and the extraction loop.
-/

lemma pyHasKey_eq_isSome (d : PyDict) (k : String) :
    pyHasKey d k = (pyLookup d k).isSome := by
  induction d with
  | nil => rfl
  | cons kv rest ih =>
    obtain ⟨k2, v⟩ := kv
    by_cases h : (k2 == k) = true
    · simp [pyHasKey, pyLookup, h]
    · rw [Bool.not_eq_true] at h
      simpa [pyHasKey, pyLookup, h] using ih

lemma pyHasKey_append (d1 d2 : PyDict) (k : String) :
    pyHasKey (d1 ++ d2) k = (pyHasKey d1 k || pyHasKey d2 k) := by
  simp [pyHasKey, List.any_append]

lemma dictInsert_fresh (d : PyDict) (k : String) (v : JsonValue)
    (h : pyHasKey d k = false) : dictInsert d k v = d ++ [(k, v)] := by
  unfold dictInsert
  rw [h]
  simp

lemma dictKeys_append (d1 d2 : PyDict) :
    dictKeys (d1 ++ d2) = dictKeys d1 ++ dictKeys d2 := by
  simp [dictKeys]

/-- The extraction loop when every required name is present: it returns
the accumulator extended by the names in declared order, each paired
with its first-match value from the arguments dict. -/
lemma extractLoop_all_present (akvs : PyDict) (names : List String) :
    ∀ acc : PyDict,
      (∀ n ∈ names, pyHasKey akvs n = true) →
      (∀ n ∈ names, pyHasKey acc n = false) →
      names.Nodup →
      extractLoop (.jobj akvs) names acc =
        .ok (acc ++ names.map (fun n => (n, (pyLookup akvs n).getD .jnull))) := by
  induction names with
  | nil =>
    intro acc _ _ _
    simp [extractLoop]
  | cons n rest ih =>
    intro acc hpres hfresh hnd
    have hn : pyHasKey akvs n = true := hpres n (by simp)
    obtain ⟨v, hv⟩ : ∃ v, pyLookup akvs n = some v := by
      rw [pyHasKey_eq_isSome] at hn
      exact Option.isSome_iff_exists.mp hn
    have hstep : extractLoop (.jobj akvs) (n :: rest) acc =
        extractLoop (.jobj akvs) rest (dictInsert acc n v) := by
      simp [extractLoop, pyContains, hn, pySubscript, hv]
    rw [hstep, dictInsert_fresh acc n v (hfresh n (by simp))]
    rw [ih (acc ++ [(n, v)]) (fun m hm => hpres m (by simp [hm])) ?fresh hnd.of_cons]
    · have hg : (pyLookup akvs n).getD .jnull = v := by rw [hv]; rfl
      simp [hg]
    case fresh =>
      intro m hm
      have hne : (n == m) = false := by
        have hnm : n ≠ m := fun he => (List.nodup_cons.mp hnd).1 (he ▸ hm)
        simpa using hnm
      rw [pyHasKey_append, hfresh m (by simp [hm])]
      simp [pyHasKey, hne]

/-- The extraction loop short-circuits at the first missing required
name, in declared order, and names exactly that argument. -/
lemma extractLoop_first_missing (akvs : PyDict) (nm : String) :
    ∀ (names : List String) (acc : PyDict),
      names.find? (fun n => !(pyHasKey akvs n)) = some nm →
      extractLoop (.jobj akvs) names acc =
        .ok [("error", .jstr ("Missing required argument: '" ++ nm ++ "'."))] := by
  intro names
  induction names with
  | nil =>
    intro acc h
    simp at h
  | cons n rest ih =>
    intro acc h
    by_cases hn : pyHasKey akvs n = true
    · have hfind : rest.find? (fun n => !(pyHasKey akvs n)) = some nm := by
        rwa [List.find?_cons_of_neg] at h
        simp [hn]
      obtain ⟨v, hv⟩ : ∃ v, pyLookup akvs n = some v := by
        rw [pyHasKey_eq_isSome] at hn
        exact Option.isSome_iff_exists.mp hn
      have hstep : extractLoop (.jobj akvs) (n :: rest) acc =
          extractLoop (.jobj akvs) rest (dictInsert acc n v) := by
        simp [extractLoop, pyContains, hn, pySubscript, hv]
      rw [hstep]
      exact ih _ hfind
    · rw [Bool.not_eq_true] at hn
      have hnm : nm = n := by
        rw [List.find?_cons_of_pos] at h
        · exact (Option.some.inj h).symm
        · simp [hn]
      subst hnm
      simp [extractLoop, pyContains, hn]

/-- C6 counterexample: a syntactically valid JSON payload that is not
an object ("5") has no top-level "arguments" entry, yet extraction does
not return the validation error naming the key: `"arguments" not in
payload` raises TypeError on an int payload. -/
theorem parse_context_args_raises_on_int_payload :
    parse_context_args (some (.jint 5)) ["sql_query"]
        = .error (.typeError "argument of type int is not iterable") ∧
    (parse_context_args (some (.jint 5)) ["sql_query"] = .ok missingArgumentsKeyDict
        → False) := by
  refine ⟨rfl, fun h => ?_⟩
  have h2 : (Except.error (PyExc.typeError "argument of type int is not iterable")
      : Except PyExc PyDict) = .ok missingArgumentsKeyDict := h
  exact Except.noConfusion h2

/-- C6 amended: for payloads that parse to a JSON object and whose
"arguments" value is itself a JSON object, extraction returns the
validation error naming the "arguments" key when that key is absent,
and otherwise the validation error naming exactly the first missing
required name in declared order (the extractor is a pure function, so
equal inputs always give the same error). -/
theorem parse_context_args_validation_errors
    (pkvs akvs : PyDict) (names : List String) (nm : String) :
    (pyHasKey pkvs "arguments" = false →
      parse_context_args (some (.jobj pkvs)) names = .ok missingArgumentsKeyDict) ∧
    (pyLookup pkvs "arguments" = some (.jobj akvs) →
      names.find? (fun n => !(pyHasKey akvs n)) = some nm →
      parse_context_args (some (.jobj pkvs)) names =
        .ok [("error", .jstr ("Missing required argument: '" ++ nm ++ "'."))]) := by
  constructor
  · intro h
    simp [parse_context_args, pyContains, h]
  · intro hl hfind
    have hk : pyHasKey pkvs "arguments" = true := by
      rw [pyHasKey_eq_isSome, hl]
      rfl
    simp only [parse_context_args, pyContains, hk, pySubscript, hl]
    exact extractLoop_first_missing akvs nm names [] hfind

/-- Witness for C6 at concrete inputs: a payload without "arguments"
gets the error naming that key; a payload whose arguments lack
"sql_query" gets the error naming "sql_query" (the first — here only —
missing required name). -/
theorem parse_context_args_validation_errors_witness :
    parse_context_args (some (.jobj [("other", .jint 1)])) ["sql_query"]
        = .ok missingArgumentsKeyDict ∧
    parse_context_args (some (.jobj [("arguments", .jobj [("limit", .jint 10)])]))
        ["sql_query"]
      = .ok [("error", .jstr ("Missing required argument: '" ++ "sql_query" ++ "'."))] := by
  refine ⟨?_, ?_⟩
  · exact (parse_context_args_validation_errors [("other", .jint 1)] [] ["sql_query"]
      "sql_query").1 (by decide)
  · exact (parse_context_args_validation_errors [("arguments", .jobj [("limit", .jint 10)])]
      [("limit", .jint 10)] ["sql_query"] "sql_query").2 rfl (by decide)

lemma dictKeys_map_pair (akvs : PyDict) (names : List String) :
    dictKeys (names.map (fun n => (n, (pyLookup akvs n).getD .jnull))) = names := by
  induction names with
  | nil => rfl
  | cons n rest ih => simpa [dictKeys] using ih

/-- C10: when the payload is a JSON object whose "arguments" value is a
JSON object containing every required name, extraction returns the dict
whose keys are exactly the required names in declared order, each
mapped to its argument value — any additional caller-supplied
arguments are dropped — and, whenever "error" is not among the required
names, the returned dict has no "error" key, so a successful extraction
is never mistaken for the error sentinel. -/
theorem parse_context_args_success_shape
    (pkvs akvs : PyDict) (names : List String)
    (hl : pyLookup pkvs "arguments" = some (.jobj akvs))
    (hpres : ∀ n ∈ names, pyHasKey akvs n = true)
    (hnd : names.Nodup) :
    parse_context_args (some (.jobj pkvs)) names =
      .ok (names.map (fun n => (n, (pyLookup akvs n).getD .jnull))) ∧
    dictKeys (names.map (fun n => (n, (pyLookup akvs n).getD .jnull))) = names ∧
    ((("error" ∈ names) → False) →
      pyHasKey (names.map (fun n => (n, (pyLookup akvs n).getD .jnull))) "error" = false) := by
  refine ⟨?_, ?_, ?_⟩
  · have hk : pyHasKey pkvs "arguments" = true := by
      rw [pyHasKey_eq_isSome, hl]
      rfl
    simp only [parse_context_args, pyContains, hk, pySubscript, hl]
    simpa using extractLoop_all_present akvs names [] hpres (by simp [pyHasKey]) hnd
  · exact dictKeys_map_pair akvs names
  · intro herr
    rw [Bool.eq_false_iff]
    intro habs
    simp only [pyHasKey, List.any_eq_true] at habs
    obtain ⟨kv, hkv, hbeq⟩ := habs
    obtain ⟨n, hn, hkveq⟩ := List.mem_map.mp hkv
    apply herr
    have h1 : kv.1 = "error" := by simpa using hbeq
    rw [← hkveq] at h1
    have h2 : n = "error" := by simpa using h1
    exact h2 ▸ hn

/-- Witness for C10 at a concrete input: with an extra caller-supplied
argument present, extraction returns exactly the required name with its
value, the extra argument is dropped, and no "error" key appears. -/
theorem parse_context_args_success_shape_witness :
    parse_context_args
        (some (.jobj [("arguments",
          .jobj [("sql_query", .jstr "SELECT 1"), ("extra", .jint 3)])]))
        ["sql_query"]
      = .ok [("sql_query", .jstr "SELECT 1")] ∧
    dictKeys [(("sql_query" : String), JsonValue.jstr "SELECT 1")] = ["sql_query"] ∧
    pyHasKey [(("sql_query" : String), JsonValue.jstr "SELECT 1")] "error" = false := by
  have h := parse_context_args_success_shape
    [("arguments", .jobj [("sql_query", .jstr "SELECT 1"), ("extra", .jint 3)])]
    [("sql_query", .jstr "SELECT 1"), ("extra", .jint 3)]
    ["sql_query"] rfl (by decide) (by decide)
  refine ⟨h.1.trans (by rfl), ?_, ?_⟩
  · exact rfl
  · exact rfl

/-- The SELECT gate of query_data_tool on a string sql_query: rejected
with the validation error, or forwarded unchanged to _execute_query. -/
lemma query_data_gate_cases (env : ExecEnv) (s : DbState) (sql : String) :
    (startsWithSelect sql = false →
      query_data_tool env s
          (some (.jobj [("arguments", .jobj [("sql_query", .jstr sql)])])) =
        ⟨s, .ok (.jobj [("error", .jstr selectOnlyMsg)])⟩) ∧
    (startsWithSelect sql = true →
      query_data_tool env s
          (some (.jobj [("arguments", .jobj [("sql_query", .jstr sql)])])) =
        ⟨(execute_query env s sql).state, (execute_query env s sql).result⟩) := by
  have hparse : parse_context_args
      (some (.jobj [("arguments", .jobj [("sql_query", .jstr sql)])])) ["sql_query"] =
      .ok [("sql_query", .jstr sql)] := rfl
  constructor
  · intro h
    simp [query_data_tool, hparse, pyHasKey, pyLookup, h]
  · intro h
    simp [query_data_tool, hparse, pyHasKey, pyLookup, h]

/-- C5: query_data_tool answers the validation error "This tool is for
SELECT queries only. Use appropriate tools for modifications." for
every sql_query string whose stripped, upper-cased text does not start
with SELECT, and for every one that does — whatever follows the prefix
— it forwards the query string unchanged to _execute_query and returns
that call's outcome. -/
theorem query_data_tool_select_gate (env : ExecEnv) (s : DbState) (sql : String) :
    (startsWithSelect sql = false →
      query_data_tool env s
          (some (.jobj [("arguments", .jobj [("sql_query", .jstr sql)])])) =
        ⟨s, .ok (.jobj [("error", .jstr selectOnlyMsg)])⟩) ∧
    (startsWithSelect sql = true →
      query_data_tool env s
          (some (.jobj [("arguments", .jobj [("sql_query", .jstr sql)])])) =
        ⟨(execute_query env s sql).state, (execute_query env s sql).result⟩) :=
  query_data_gate_cases env s sql

/-- Witness for C5 at concrete inputs: "DELETE FROM t" is rejected with
the validation error (end-to-end example 3), and "SELECT 1" is
forwarded to the executor. -/
theorem query_data_tool_select_gate_witness :
    query_data_tool okExecEnv poolSt
        (some (.jobj [("arguments", .jobj [("sql_query", .jstr "DELETE FROM t")])])) =
      ⟨poolSt, .ok (.jobj [("error", .jstr selectOnlyMsg)])⟩ ∧
    query_data_tool okExecEnv poolSt
        (some (.jobj [("arguments", .jobj [("sql_query", .jstr "SELECT 1")])])) =
      ⟨(execute_query okExecEnv poolSt "SELECT 1").state,
        (execute_query okExecEnv poolSt "SELECT 1").result⟩ := by
  refine ⟨?_, ?_⟩
  · exact (query_data_tool_select_gate okExecEnv poolSt "DELETE FROM t").1 (by decide)
  · exact (query_data_tool_select_gate okExecEnv poolSt "SELECT 1").2 (by decide)

/-- The response envelope shapes of section "External interfaces":
a columns/rows result, a sum result, or an error result. -/
def isToolEnvelope : JsonValue → Bool
  | .jobj [("columns", .jarr _), ("rows", .jarr _)] => true
  | .jobj [("sum", .jint _)] => true
  | .jobj [("error", .jstr _)] => true
  | _ => false

/-- Whether an Except value is a normal return (no exception escaped). -/
def isReturn : Except PyExc JsonValue → Bool
  | .ok _ => true
  | .error _ => false

lemma add_integers_body_ok_envelope (ctx : Option JsonValue) (v : JsonValue)
    (h : add_integers_body ctx = .ok v) : isToolEnvelope v = true := by
  unfold add_integers_body at h
  repeat' split at h
  all_goals first
    | (cases h; rfl)
    | exact Except.noConfusion h

/-- add_integers_tool returns one of the envelope shapes for every
context whatsoever: its outer `except Exception` converts anything the
body raises into the unexpected-error envelope. -/
lemma add_integers_tool_envelope (ctx : Option JsonValue) :
    isToolEnvelope (add_integers_tool ctx) = true := by
  unfold add_integers_tool
  cases hb : add_integers_body ctx with
  | ok v => exact add_integers_body_ok_envelope ctx v hb
  | error e => rfl

/-- C4 counterexample: with num_a = null (valid JSON, not
integer-coercible), int(None) raises TypeError, which the inner
`except ValueError` does not catch; the outer handler returns the
generic unexpected-error envelope, not the validation error naming the
type requirement. -/
theorem add_integers_null_not_validation_error :
    add_integers_tool
        (some (.jobj [("arguments", .jobj [("num_a", .jnull), ("num_b", .jint 1)])]))
      = errorEnvelope ("An unexpected error occurred: int() argument must be a string, a bytes-like object or a real number, not NoneType") ∧
    (("An unexpected error occurred: int() argument must be a string, a bytes-like object or a real number, not NoneType" : String)
        = invalidTypesMsg → False) := by
  refine ⟨rfl, fun h => ?_⟩
  exact absurd h (by decide)

/-- C4 amended: for payloads carrying num_a and num_b, the tool returns
the sum envelope when both values are integer-coercible; when the first
failing coercion raises ValueError (a non-numeric string) it returns
the validation error naming the type requirement; when it raises
TypeError (null, list, object) it returns the generic unexpected-error
envelope instead; and for every context whatsoever the tool returns an
envelope and never raises. -/
theorem add_integers_tool_amended (va vb : JsonValue) (na nb : Int) (m : String) :
    (pyInt va = .ok na → pyInt vb = .ok nb →
      add_integers_tool
          (some (.jobj [("arguments", .jobj [("num_a", va), ("num_b", vb)])]))
        = .jobj [("sum", .jint (na + nb))]) ∧
    (pyInt va = .error (.valueError m) →
      add_integers_tool
          (some (.jobj [("arguments", .jobj [("num_a", va), ("num_b", vb)])]))
        = errorEnvelope invalidTypesMsg) ∧
    (pyInt va = .ok na → pyInt vb = .error (.valueError m) →
      add_integers_tool
          (some (.jobj [("arguments", .jobj [("num_a", va), ("num_b", vb)])]))
        = errorEnvelope invalidTypesMsg) ∧
    (pyInt va = .error (.typeError m) →
      add_integers_tool
          (some (.jobj [("arguments", .jobj [("num_a", va), ("num_b", vb)])]))
        = errorEnvelope ("An unexpected error occurred: " ++ m)) ∧
    (pyInt va = .ok na → pyInt vb = .error (.typeError m) →
      add_integers_tool
          (some (.jobj [("arguments", .jobj [("num_a", va), ("num_b", vb)])]))
        = errorEnvelope ("An unexpected error occurred: " ++ m)) ∧
    (∀ ctx : Option JsonValue, isToolEnvelope (add_integers_tool ctx) = true) := by
  have hargs : pySubscript (.jobj [("arguments", .jobj [("num_a", va), ("num_b", vb)])])
      "arguments" = .ok (.jobj [("num_a", va), ("num_b", vb)]) := rfl
  refine ⟨?_, ?_, ?_, ?_, ?_, add_integers_tool_envelope⟩
  · intro ha hb
    simp [add_integers_tool, add_integers_body, pyContains, pyHasKey, pySubscript,
      pyLookup, ha, hb]
  · intro ha
    simp [add_integers_tool, add_integers_body, pyContains, pyHasKey, pySubscript,
      pyLookup, ha]
  · intro ha hb
    simp [add_integers_tool, add_integers_body, pyContains, pyHasKey, pySubscript,
      pyLookup, ha, hb]
  · intro ha
    simp [add_integers_tool, add_integers_body, pyContains, pyHasKey, pySubscript,
      pyLookup, ha, pyExcStr]
  · intro ha hb
    simp [add_integers_tool, add_integers_body, pyContains, pyHasKey, pySubscript,
      pyLookup, ha, hb, pyExcStr]

/-- Witness for C4 at concrete inputs: the end-to-end example
{"num_a": "5", "num_b": "10"} gives {"sum": 15}; a non-numeric string
gives the validation error; an envelope comes back even for a
malformed context. -/
theorem add_integers_tool_amended_witness :
    add_integers_tool
        (some (.jobj [("arguments",
          .jobj [("num_a", .jstr "5"), ("num_b", .jstr "10")])]))
      = .jobj [("sum", .jint 15)] ∧
    add_integers_tool
        (some (.jobj [("arguments",
          .jobj [("num_a", .jstr "abc"), ("num_b", .jint 1)])]))
      = errorEnvelope invalidTypesMsg ∧
    isToolEnvelope (add_integers_tool none) = true := by
  refine ⟨?_, ?_, ?_⟩
  · have h := (add_integers_tool_amended (.jstr "5") (.jstr "10") 5 10 "").1 rfl rfl
    exact h.trans rfl
  · exact (add_integers_tool_amended (.jstr "abc") (.jint 1) 0 1
      "invalid literal for int() with base 10: abc").2.1 rfl
  · exact (add_integers_tool_amended .jnull .jnull 0 0 "").2.2.2.2.2 none

/-- C7 counterexample: a payload whose sql_query value is the number 5
(an argument value of an unexpected type) makes query_data_tool raise
AttributeError at `sql_query.strip()` — a raw native exception, not a
structured envelope. -/
theorem query_data_tool_raises_on_int_sql :
    (query_data_tool okExecEnv poolSt
        (some (.jobj [("arguments", .jobj [("sql_query", .jint 5)])]))).result
      = .error (.attributeError "int object has no attribute strip") ∧
    isReturn (query_data_tool okExecEnv poolSt
        (some (.jobj [("arguments", .jobj [("sql_query", .jint 5)])]))).result
      = false :=
  ⟨rfl, rfl⟩

/-- C7 amended: dispatch returns one of the structured envelope shapes
— add_integers for every context whatsoever, and query_data for
malformed JSON, for a missing "arguments" key, and, when its sql_query
value is a string, whenever the pool hands out a connection and any
execution failure is a ConnectionError.  Outside those conditions a raw
native exception escapes (AttributeError for a non-string sql_query,
UnboundLocalError on pool failure, the driver error on a
non-ConnectionError execution failure). -/
theorem dispatch_structured_envelope
    (env : ExecEnv) (s : DbState) (pkvs : PyDict) (sql : String) (c : Conn) :
    (∀ ctx : Option JsonValue, isToolEnvelope (add_integers_tool ctx) = true) ∧
    (query_data_tool env s none = ⟨s, .ok (.jobj invalidJsonDict)⟩) ∧
    (pyHasKey pkvs "arguments" = false →
      query_data_tool env s (some (.jobj pkvs)) = ⟨s, .ok (.jobj missingArgumentsKeyDict)⟩) ∧
    ((get_db_connection env.genv s).ret = .ok (some c) →
      ((∃ cols rows, env.runQuery sql = .ok (cols, rows)) ∨
        (∃ msg, env.runQuery sql = .error (.connectionError msg))) →
      ∃ v, (query_data_tool env s
          (some (.jobj [("arguments", .jobj [("sql_query", .jstr sql)])]))).result = .ok v
        ∧ isToolEnvelope v = true) := by
  refine ⟨add_integers_tool_envelope, rfl, ?_, ?_⟩
  · intro h
    have hp : parse_context_args (some (.jobj pkvs)) ["sql_query"]
        = .ok missingArgumentsKeyDict := by
      simp [parse_context_args, pyContains, h]
    simp [query_data_tool, hp, missingArgumentsKeyDict, pyHasKey]
  · intro hget hrun
    by_cases hsel : startsWithSelect sql = true
    · rw [(query_data_gate_cases env s sql).2 hsel]
      rcases hg : get_db_connection env.genv s with ⟨s2, ret⟩
      rw [hg] at hget
      subst hget
      rcases hrun with ⟨cols, rows, hr⟩ | ⟨msg, hr⟩
      · exact ⟨queryResultEnvelope cols rows, by simp [execute_query, hg, hr], by
          simp [queryResultEnvelope, isToolEnvelope]⟩
      · exact ⟨.jobj [("error", .jstr ("Database connection error: " ++ msg))],
          by simp [execute_query, hg, hr], rfl⟩
    · rw [Bool.not_eq_true] at hsel
      rw [(query_data_gate_cases env s sql).1 hsel]
      exact ⟨.jobj [("error", .jstr selectOnlyMsg)], rfl, rfl⟩

/-- Witness for C7 (amended) at concrete inputs: an envelope for the
integer tool on a malformed context, the invalid-JSON envelope for
query_data, and a columns/rows envelope end to end with a working
pool. -/
theorem dispatch_structured_envelope_witness :
    isToolEnvelope (add_integers_tool none) = true ∧
    query_data_tool okExecEnv poolSt none = ⟨poolSt, .ok (.jobj invalidJsonDict)⟩ ∧
    ∃ v, (query_data_tool okExecEnv poolSt
        (some (.jobj [("arguments", .jobj [("sql_query", .jstr "SELECT 1")])]))).result
          = .ok v
      ∧ isToolEnvelope v = true := by
  have h := dispatch_structured_envelope okExecEnv poolSt [] "SELECT 1" 7
  exact ⟨h.1 none, h.2.1, h.2.2.2 rfl (.inl ⟨["datname"], [[.jstr "db1"]], rfl⟩)⟩

/-- An environment whose query yields a duplicate column name, as
"SELECT 1 AS x, 2 AS x" does. -/
def dupColEnv : ExecEnv :=
  ⟨okGetEnv, true, fun _ => .ok (["x", "x"], [[.jint 1, .jint 2]])⟩

/-- C9 counterexample: with duplicate column names, dict(zip(colnames,
row)) collapses the row to a single key, so the row's key list is not
the column list: the later column silently overwrites the earlier one. -/
theorem execute_query_duplicate_columns :
    (execute_query dupColEnv poolSt "SELECT 1 AS x, 2 AS x").result
      = .ok (.jobj [("columns", .jarr [.jstr "x", .jstr "x"]),
                    ("rows", .jarr [.jobj [("x", .jint 2)]])]) ∧
    (dictKeys (dictZip ["x", "x"] [.jint 1, .jint 2]) = ["x", "x"] → False) := by
  refine ⟨rfl, fun h => ?_⟩
  exact absurd h (by decide)

/-- The fold behind dict(zip(ks, vs)): starting from a dict containing
none of the keys, with distinct keys and one value per key, it appends
one entry per key in order. -/
lemma dictZip_go_keys (ks : List String) :
    ∀ (vs : List JsonValue) (acc : PyDict),
      ks.Nodup → vs.length = ks.length →
      (∀ k ∈ ks, pyHasKey acc k = false) →
      dictKeys ((List.zip ks vs).foldl (fun d kv => dictInsert d kv.1 kv.2) acc)
        = dictKeys acc ++ ks := by
  induction ks with
  | nil =>
    intro vs acc _ _ _
    simp
  | cons k rest ih =>
    intro vs acc hnd hlen hfresh
    cases vs with
    | nil => simp at hlen
    | cons v vtail =>
      have hstep : (List.zip (k :: rest) (v :: vtail)).foldl
            (fun d kv => dictInsert d kv.1 kv.2) acc
          = (List.zip rest vtail).foldl (fun d kv => dictInsert d kv.1 kv.2)
              (dictInsert acc k v) := by
        simp [List.zip_cons_cons]
      rw [hstep, dictInsert_fresh acc k v (hfresh k (by simp))]
      rw [ih vtail (acc ++ [(k, v)]) hnd.of_cons (by simpa using hlen) ?fresh]
      · simp [dictKeys_append, dictKeys]
      case fresh =>
        intro m hm
        have hne : (k == m) = false := by
          have hnm : k ≠ m := fun he => (List.nodup_cons.mp hnd).1 (he ▸ hm)
          simpa using hnm
        rw [pyHasKey_append, hfresh m (by simp [hm])]
        simp [pyHasKey, hne]

/-- With distinct column names and one value per column, the built row
has exactly the column names as keys, in column order. -/
lemma dictZip_keys (cols : List String) (row : List JsonValue)
    (hnd : cols.Nodup) (hlen : row.length = cols.length) :
    dictKeys (dictZip cols row) = cols := by
  simpa using dictZip_go_keys cols row [] hnd hlen (by simp [pyHasKey])

/-- C9 amended: for every successfully executed query whose column
names are distinct and whose rows carry one value per column, the
result envelope is built from rows whose key list is exactly the
column-name list, in the same order; with duplicate column names the
row collapses (see the counterexample). -/
theorem execute_query_rows_match_columns
    (env : ExecEnv) (s : DbState) (q : String) (c : Conn)
    (cols : List String) (rows : List (List JsonValue))
    (hget : (get_db_connection env.genv s).ret = .ok (some c))
    (hrun : env.runQuery q = .ok (cols, rows))
    (hnd : cols.Nodup)
    (hlen : ∀ r ∈ rows, r.length = cols.length) :
    (execute_query env s q).result = .ok (queryResultEnvelope cols rows) ∧
    ∀ r ∈ rows, dictKeys (dictZip cols r) = cols := by
  constructor
  · rcases hg : get_db_connection env.genv s with ⟨s2, ret⟩
    rw [hg] at hget
    subst hget
    simp [execute_query, hg, hrun]
  · intro r hr
    exact dictZip_keys cols r hnd (hlen r hr)

/-- Witness for C9 at a concrete input: one column "datname", one row,
keys of the built row equal the column list. -/
theorem execute_query_rows_match_columns_witness :
    (execute_query okExecEnv poolSt "SELECT datname FROM pg_database").result
      = .ok (queryResultEnvelope ["datname"] [[.jstr "db1"]]) ∧
    ∀ r ∈ [[JsonValue.jstr "db1"]], dictKeys (dictZip ["datname"] r) = ["datname"] := by
  exact execute_query_rows_match_columns okExecEnv poolSt
    "SELECT datname FROM pg_database" 7 ["datname"] [[.jstr "db1"]]
    rfl rfl (by decide) (by decide)
